import Mathlib

/-!
Shallow embedding of the client-side decision logic of the repair-ticket /
equipment-loan front-end, together with proofs checking the specification's
claims against it.

The repository contains several near-duplicate page components, each with its
own copy of the status-transition logic.  Each page is embedded in its own
namespace:

* `ITRepair`   — src/src/app/it/repairs/[id]/page.tsx
* `AdminV1`    — src/src/app/admin/repairs/[id]/page.tsx, first component
                 (lines 1–700)
* `AdminV2`    — same file, second component (lines ~695–1095)
* `AdminV3`    — same file, third component (lines ~1098–2090)
* `Part003`    — src/unnamed/part_003
* `AdminLoans` — src/unnamed/part_002 (admin loans page)

JavaScript strings are modelled as `List Char`; `null`-able identifiers as
`Option Nat`; partial PUT bodies as structures of `Option` fields.  Where a
handler branches on JavaScript truthiness of a `number | null` value, the
embedding checks `some u` with `u ≠ 0`, because `0` is falsy in JavaScript.
-/

namespace JsString

/-- Embedding of JavaScript `String.prototype.toLowerCase` on strings
modelled as char lists. -/
def toLower (s : List Char) : List Char := s.map Char.toLower

/-- Does `needle` occur as a leading segment of `hay`?  (Helper for
`containsSub`.) -/
def startsWith : List Char → List Char → Bool
  | _, [] => true
  | [], _ :: _ => false
  | c :: hay, d :: needle => c == d && startsWith hay needle

/-- Embedding of JavaScript `String.prototype.includes`: substring
containment. -/
def containsSub : List Char → List Char → Bool
  | [], needle => startsWith [] needle
  | hay@(_ :: rest), needle => startsWith hay needle || containsSub rest needle

/-- Embedding of JavaScript `String.prototype.trim`: strip leading and
trailing whitespace. -/
def trimStr (s : String) : String :=
  ⟨((s.data.dropWhile Char.isWhitespace).reverse.dropWhile Char.isWhitespace).reverse⟩

end JsString

namespace AdminLoans

/-- Loan status values of the `Loan` interface in src/unnamed/part_002. -/
inductive LoanStatus
  | BORROWED
  | RETURNED
  | OVERDUE
  | PENDING
deriving DecidableEq, Repr

/-- The string literal each `LoanStatus` value stands for in the source,
used by the string comparison `loan.status === filterStatus`. -/
def statusKey : LoanStatus → List Char
  | .BORROWED => "BORROWED".toList
  | .RETURNED => "RETURNED".toList
  | .OVERDUE => "OVERDUE".toList
  | .PENDING => "PENDING".toList

/-- The `borrowedBy` object of a loan (src/unnamed/part_002, `Loan`
interface). -/
structure Borrower where
  id : Nat
  name : List Char
deriving DecidableEq, Repr

/-- The `Loan` interface of src/unnamed/part_002. -/
structure Loan where
  id : Nat
  itemName : List Char
  description : Option (List Char)
  quantity : Nat
  borrowDate : List Char
  expectedReturnDate : List Char
  returnDate : Option (List Char)
  status : LoanStatus
  borrowedBy : Borrower
  remark : Option (List Char)
deriving DecidableEq, Repr

/-- The `matchesSearch` conjunct of the `filteredLoans` predicate
(src/unnamed/part_002 lines 179–185): case-insensitive substring match
against the item name or the borrower's name. -/
def matchesSearch (loan : Loan) (searchTerm : List Char) : Bool :=
  JsString.containsSub (JsString.toLower loan.itemName) (JsString.toLower searchTerm)
    || JsString.containsSub (JsString.toLower loan.borrowedBy.name)
        (JsString.toLower searchTerm)

/-- The `matchesStatus` conjunct of the `filteredLoans` predicate
(src/unnamed/part_002 lines 183–185). -/
def matchesStatus (loan : Loan) (filterStatus : List Char) : Bool :=
  filterStatus == "all".toList || statusKey loan.status == filterStatus

/-- `filteredLoans` of `AdminLoansContent` (src/unnamed/part_002 lines
179–186). -/
def filteredLoans (loans : List Loan) (searchTerm filterStatus : List Char) :
    List Loan :=
  loans.filter fun loan => matchesSearch loan searchTerm && matchesStatus loan filterStatus

/-- `itemsPerPage` constant (src/unnamed/part_002 line 65). -/
def itemsPerPage : Nat := 10

/-- `totalPages = Math.ceil(filteredLoans.length / itemsPerPage)`
(src/unnamed/part_002 line 188), with the ceiling of a natural division
written as `(n + d - 1) / d`. -/
def totalPages (loans : List Loan) (searchTerm filterStatus : List Char) : Nat :=
  ((filteredLoans loans searchTerm filterStatus).length + itemsPerPage - 1) / itemsPerPage

/-- `paginatedLoans = filteredLoans.slice((currentPage - 1) * itemsPerPage,
currentPage * itemsPerPage)` (src/unnamed/part_002 lines 189–192);
`slice(a, b)` keeps the elements with indices in `[a, b)`. -/
def paginatedLoans (loans : List Loan) (searchTerm filterStatus : List Char)
    (currentPage : Nat) : List Loan :=
  ((filteredLoans loans searchTerm filterStatus).drop ((currentPage - 1) * itemsPerPage)).take
    (currentPage * itemsPerPage - (currentPage - 1) * itemsPerPage)

end AdminLoans

namespace ITRepair

/-- The `Status` union type of src/src/app/it/repairs/[id]/page.tsx
(lines 7–13). -/
inductive Status
  | PENDING
  | ASSIGNED
  | IN_PROGRESS
  | WAITING_PARTS
  | COMPLETED
  | CANCELLED
deriving DecidableEq, Repr

/-- The `Urgency` union type (line 15). -/
inductive Urgency
  | NORMAL
  | URGENT
  | CRITICAL
deriving DecidableEq, Repr

/-- An element of `RepairDetail.assignees` as the IT page builds it
(lines 86–90): `{ id: a.user.id, name: a.user.name }`. -/
structure Assignee where
  id : Nat
  name : String
deriving DecidableEq, Repr

/-- The fields of the page's `RepairDetail` interface that take part in its
decision logic (lines 23–39). -/
structure RepairDetail where
  id : String
  ticketCode : String
  title : String
  description : String
  category : String
  location : String
  status : Status
  urgency : Urgency
  assignees : List Assignee
  notes : String
deriving DecidableEq, Repr

/-- A PUT body the IT page sends to `/api/repairs/:id`; a field the request
leaves out is `none`.  This page never sends assignee ids (its `handleSave`
comments: "Do NOT send assignedTo here"). -/
structure PutBody where
  problemTitle : Option String
  problemDescription : Option String
  location : Option String
  status : Option Status
  urgency : Option Urgency
  notes : Option String
deriving DecidableEq, Repr

/-- The outcome of an IT-page handler run: either it returns without doing
anything, or it issues the PUT request it built.  The handlers have no
rejection outcome of their own. -/
inductive Action
  | noAction
  | put (body : PutBody)
deriving DecidableEq, Repr

/-- The effect of a partial PUT on the ticket snapshot: each present field
overwrites the stored one; absent fields, the assignee set included, stay as
they were. -/
def applyPut (data : RepairDetail) (body : PutBody) : RepairDetail :=
  { data with
    title := body.problemTitle.getD data.title
    description := body.problemDescription.getD data.description
    location := body.location.getD data.location
    status := body.status.getD data.status
    urgency := body.urgency.getD data.urgency
    notes := body.notes.getD data.notes }

/-- `isAssigned = (data?.assignees?.length || 0) > 0` (line 116). -/
def isAssigned (data : RepairDetail) : Bool :=
  0 < data.assignees.length

/-- `isMyJob = currentUserId !== null && data?.assignees?.some(a => a.id ===
currentUserId)` (lines 117–119).  The check is a strict `!== null`, not a
truthiness test. -/
def isMyJob (currentUserId : Option Nat) (data : RepairDetail) : Bool :=
  match currentUserId with
  | none => false
  | some u => data.assignees.any fun a => a.id == u

/-- `canEdit = isMyJob && data?.status !== "ASSIGNED" && data?.status !==
"PENDING"` (lines 120–121). -/
def canEdit (currentUserId : Option Nat) (data : RepairDetail) : Bool :=
  isMyJob currentUserId data
    && !(data.status == .ASSIGNED)
    && !(data.status == .PENDING)

/-- Render condition of the accept button, Case 1 (lines 389–397): the
ticket is assigned to the current user and awaits acceptance. -/
def showAcceptAssigned (currentUserId : Option Nat) (data : RepairDetail) : Bool :=
  isMyJob currentUserId data && data.status == .ASSIGNED

/-- Render condition of the accept button, Case 2, the "Legacy/Pool pickup"
(lines 408–417): nobody is assigned and the ticket is still pending. -/
def showAcceptPool (currentUserId : Option Nat) (data : RepairDetail) : Bool :=
  !(isAssigned data) && !(isMyJob currentUserId data) && data.status == .PENDING

/-- The accept action is reachable through either button. -/
def showAcceptButton (currentUserId : Option Nat) (data : RepairDetail) : Bool :=
  showAcceptAssigned currentUserId data || showAcceptPool currentUserId data

/-- Render condition of the reject button (lines 398–405): same block as
accept Case 1. -/
def showRejectButton (currentUserId : Option Nat) (data : RepairDetail) : Bool :=
  isMyJob currentUserId data && data.status == .ASSIGNED

/-- `handleAcceptJob` (lines 124–143): guarded by `!data || !currentUserId`
(truthiness, so user id 0 also returns) and a window.confirm; then it PUTs
`{ status: "IN_PROGRESS" }` and nothing else — in particular no assignee
change. -/
def handleAcceptJob (currentUserId : Option Nat) : Action :=
  match currentUserId with
  | none => .noAction
  | some u =>
    if u = 0 then .noAction
    else .put { problemTitle := none, problemDescription := none, location := none,
                status := some .IN_PROGRESS, urgency := none, notes := none }

/-- `handleRejectJob` (lines 145–166): guarded by `!data || !currentUserId`;
`prompt` returns `null` (cancel) or the typed string, and only `null` aborts;
then it PUTs `{ status: "PENDING", notes: data.notes + "\n[ปฏิเสธงานโดย IT]: "
+ reason }`.  An empty string passes the `reason === null` test and is sent. -/
def handleRejectJob (currentUserId : Option Nat) (dataNotes : String)
    (reason : Option String) : Action :=
  match currentUserId with
  | none => .noAction
  | some u =>
    if u = 0 then .noAction
    else
      match reason with
      | none => .noAction
      | some r =>
        .put { problemTitle := none, problemDescription := none, location := none,
               status := some .PENDING, urgency := none,
               notes := some (dataNotes ++ "\n[ปฏิเสธงานโดย IT]: " ++ r) }

/-- `handleSave` (lines 168–192): PUTs the form fields with no validation of
any kind — no transition check and no notes check, whatever `status` the
form's select holds (the select offers all five options when `canEdit`). -/
def handleSave (title description location : String) (status : Status)
    (urgency : Urgency) (notes : String) : Action :=
  .put { problemTitle := some title, problemDescription := some description,
         location := some location, status := some status,
         urgency := some urgency, notes := some notes }

end ITRepair

namespace Part003

/-- The `Status` union type of src/unnamed/part_003 (lines 8–13): this page
variant has no `ASSIGNED` status. -/
inductive Status
  | PENDING
  | IN_PROGRESS
  | WAITING_PARTS
  | COMPLETED
  | CANCELLED
deriving DecidableEq, Repr

/-- A status option as `getAvailableStatuses` returns it. -/
structure StatusOption where
  value : Status
  label : String
  disabled : Bool
deriving DecidableEq, Repr

/-- The `allStatuses` list of `getAvailableStatuses` (lines 134–139):
four options, with no `WAITING_PARTS` entry. -/
def allStatuses : List (Status × String) :=
  [(.PENDING, "รอรับงาน"), (.IN_PROGRESS, "กำลังดำเนินการ"),
   (.COMPLETED, "เสร็จสิ้น"), (.CANCELLED, "ยกเลิก")]

/-- `getAvailableStatuses` (lines 131–158): terminal statuses disable every
option but the current one; `IN_PROGRESS` and `WAITING_PARTS` disable only
`PENDING`; anything else leaves every option enabled. -/
def getAvailableStatuses (currentStatus : Status) : List StatusOption :=
  allStatuses.map fun s =>
    { value := s.1, label := s.2,
      disabled :=
        if currentStatus = .COMPLETED ∨ currentStatus = .CANCELLED then
          s.1 ≠ currentStatus
        else if currentStatus = .IN_PROGRESS ∨ currentStatus = .WAITING_PARTS then
          s.1 = .PENDING
        else false }

/-- `handleAcceptJob` of part_003 (lines 198–238): reads
`AuthService.getUserId()` (ambient), pushes the current user into the
assignee list when truthy and not yet present, and PUTs
`{ status: "IN_PROGRESS", assigneeIds: newAssigneeIds }`. -/
def acceptJobNewIds (assigneeIds : List Nat) (ambientUserId : Option Nat) : List Nat :=
  match ambientUserId with
  | none => assigneeIds
  | some u =>
    if u ≠ 0 ∧ ¬ (assigneeIds.contains u) then assigneeIds ++ [u] else assigneeIds

end Part003

namespace AdminV1

/-- The `Status` union type of the first `RepairDetailPage` component in
src/src/app/admin/repairs/[id]/page.tsx (lines 16–22): all six statuses. -/
inductive Status
  | PENDING
  | ASSIGNED
  | IN_PROGRESS
  | WAITING_PARTS
  | COMPLETED
  | CANCELLED
deriving DecidableEq, Repr

/-- The `Urgency` union type (line 24). -/
inductive Urgency
  | NORMAL
  | URGENT
  | CRITICAL
deriving DecidableEq, Repr

/-- A status option as this component's `getAvailableStatuses` returns it. -/
structure StatusOption where
  value : Status
  label : String
  disabled : Bool
deriving DecidableEq, Repr

/-- The `allStatuses` list of `getAvailableStatuses` (lines 179–185):
five options, `WAITING_PARTS` has no entry. -/
def allStatuses : List (Status × String) :=
  [(.PENDING, "รอรับงาน"), (.ASSIGNED, "มอบหมายแล้ว (รอตอบรับ)"),
   (.IN_PROGRESS, "กำลังดำเนินการ"), (.COMPLETED, "เสร็จสิ้น"),
   (.CANCELLED, "ยกเลิก")]

/-- `getAvailableStatuses` (lines 176–198).  Its own comment: "For now allow
Admin to force change mostly, but respect completed state" — the only lock
is that a terminal current status disables every other option; no other
transition is restricted. -/
def getAvailableStatuses (currentStatus : Status) : List StatusOption :=
  allStatuses.map fun s =>
    { value := s.1, label := s.2,
      disabled :=
        if currentStatus = .COMPLETED ∨ currentStatus = .CANCELLED then
          s.1 ≠ currentStatus
        else false }

/-- The body `handleSave` PUTs (lines 212–235): the form fields, sent
unconditionally — no transition, freeze, assignee or notes validation. -/
structure SavePutBody where
  problemTitle : String
  problemDescription : String
  location : String
  status : Status
  urgency : Urgency
  notes : String
  assigneeIds : List Nat
deriving DecidableEq, Repr

/-- `handleSave` of the first component (lines 212–235): guarded only by
`!data`; always builds and sends the full body. -/
def handleSave (title description location : String) (status : Status)
    (urgency : Urgency) (notes : String) (assigneeIds : List Nat) : SavePutBody :=
  { problemTitle := title, problemDescription := description, location := location,
    status := status, urgency := urgency, notes := notes, assigneeIds := assigneeIds }

/-- The new assignee list `handleAcceptJob` computes (lines 244–256): it
reads `AuthService.getUserId()` — ambient session identity — inside the
handler, and pushes that id when it is truthy and not yet present. -/
def acceptJobNewIds (assigneeIds : List Nat) (ambientUserId : Option Nat) : List Nat :=
  match ambientUserId with
  | none => assigneeIds
  | some u =>
    if u ≠ 0 ∧ ¬ (assigneeIds.contains u) then assigneeIds ++ [u] else assigneeIds

/-- The body `handleAcceptJob` PUTs (lines 256–262):
`{ status: "IN_PROGRESS", assigneeIds: newAssigneeIds }`. -/
structure AcceptPutBody where
  status : Status
  assigneeIds : List Nat
deriving DecidableEq, Repr

/-- `handleAcceptJob` of the first component (lines 243–269), as a function
of the form's assignee list and the ambient user id it reads itself. -/
def handleAcceptJob (assigneeIds : List Nat) (ambientUserId : Option Nat) :
    AcceptPutBody :=
  { status := .IN_PROGRESS, assigneeIds := acceptJobNewIds assigneeIds ambientUserId }

end AdminV1

namespace AdminV2

/-- The `Status` union type of the second `RepairDetailPage` component in
src/src/app/admin/repairs/[id]/page.tsx (lines 699–704): no `ASSIGNED`
status in this variant. -/
inductive Status
  | PENDING
  | IN_PROGRESS
  | WAITING_PARTS
  | COMPLETED
  | CANCELLED
deriving DecidableEq, Repr

/-- The `Urgency` union type (line 706). -/
inductive Urgency
  | NORMAL
  | URGENT
  | CRITICAL
deriving DecidableEq, Repr

/-- An element of `RepairDetail.assignees`; `hasChanges` projects it to
`userId`.  The nested `user` object plays no part in the logic. -/
structure Assignee where
  id : Nat
  userId : Nat
deriving DecidableEq, Repr

/-- The fields of this component's `RepairDetail` interface (lines 726–741)
that take part in its decision logic. -/
structure RepairDetail where
  id : String
  ticketCode : String
  title : String
  description : String
  location : String
  status : Status
  urgency : Urgency
  assignees : List Assignee
  notes : String
deriving DecidableEq, Repr

/-- `STATUS_LABEL` (lines 745–751), in key order. -/
def STATUS_LABEL : List (Status × String) :=
  [(.PENDING, "รอดำเนินการ"), (.IN_PROGRESS, "กำลังดำเนินการ"),
   (.WAITING_PARTS, "รออะไหล่"), (.COMPLETED, "เสร็จสิ้น"),
   (.CANCELLED, "ยกเลิก")]

/-- `STATUS_FLOW` (lines 754–760): this variant's transition table. -/
def STATUS_FLOW : Status → List Status
  | .PENDING => [.IN_PROGRESS, .WAITING_PARTS, .COMPLETED, .CANCELLED]
  | .IN_PROGRESS => [.WAITING_PARTS, .COMPLETED, .CANCELLED]
  | .WAITING_PARTS => [.IN_PROGRESS, .COMPLETED, .CANCELLED]
  | .COMPLETED => []
  | .CANCELLED => []

/-- A status option as `availableStatuses` renders it. -/
structure StatusOption where
  value : Status
  label : String
  disabled : Bool
deriving DecidableEq, Repr

/-- `availableStatuses` (lines 841–851): an option is disabled when it is
not the current status and the current status is terminal or the option is
not in `STATUS_FLOW[status]`. -/
def availableStatuses (status : Status) : List StatusOption :=
  STATUS_LABEL.map fun s =>
    { value := s.1, label := s.2,
      disabled :=
        status ≠ s.1
          ∧ (status = .COMPLETED ∨ status = .CANCELLED
              ∨ s.1 ∉ STATUS_FLOW status) }

/-- Insert a string into a ≤-sorted list, keeping it sorted: helper
embedding JavaScript's default `Array.prototype.sort` (string order) used by
`hasChanges`. -/
def insertSorted (x : String) : List String → List String
  | [] => [x]
  | y :: ys => if x ≤ y then x :: y :: ys else y :: insertSorted x ys

/-- Sort a list of strings in JavaScript's default sort order. -/
def sortStrings : List String → List String
  | [] => []
  | x :: xs => insertSorted x (sortStrings xs)

/-- `ids.sort().join()` as `hasChanges` computes it (lines 869–870):
JavaScript's default sort compares the numbers as strings, and `join()`
separates with commas. -/
def sortJoin (ids : List Nat) : String :=
  String.intercalate "," (sortStrings (ids.map toString))

/-- `hasChanges` (lines 861–870): some form field differs from the stored
ticket, the assignee comparison going through `sort().join()`. -/
def hasChanges (data : RepairDetail) (title description location : String)
    (status : Status) (urgency : Urgency) (notes : String)
    (assigneeIds : List Nat) : Bool :=
  title ≠ data.title ∨ description ≠ data.description
    ∨ location ≠ data.location ∨ status ≠ data.status
    ∨ urgency ≠ data.urgency ∨ notes ≠ data.notes
    ∨ sortJoin assigneeIds ≠ sortJoin (data.assignees.map (·.userId))

/-- The body this component's `handleSave` PUTs (lines 896–906). -/
structure SavePutBody where
  problemTitle : String
  problemDescription : String
  location : String
  status : Status
  urgency : Urgency
  notes : String
  assigneeIds : List Nat
deriving DecidableEq, Repr

/-- The outcome of a `handleSave` run in this component: return without
doing anything, set an error message and stop, or send the PUT. -/
inductive SaveResult
  | noAction
  | error (msg : String)
  | put (body : SavePutBody)
deriving DecidableEq, Repr

/-- `handleSave` (lines 876–911): returns when nothing changed; rejects
`IN_PROGRESS` with an empty assignee list and `COMPLETED` with blank
(trimmed) notes; otherwise PUTs the form.  There is no freeze check: a
changed field on a terminal-status ticket is sent. -/
def handleSave (data : RepairDetail) (title description location : String)
    (status : Status) (urgency : Urgency) (notes : String)
    (assigneeIds : List Nat) : SaveResult :=
  if ¬ hasChanges data title description location status urgency notes assigneeIds then
    .noAction
  else if status = .IN_PROGRESS ∧ assigneeIds.length = 0 then
    .error "สถานะกำลังดำเนินการ ต้องมีผู้รับผิดชอบอย่างน้อย 1 คน"
  else if status = .COMPLETED ∧ JsString.trimStr notes = "" then
    .error "กรุณาบันทึกรายละเอียดการซ่อมก่อนปิดงาน"
  else
    .put { problemTitle := title, problemDescription := description,
           location := location, status := status, urgency := urgency,
           notes := notes, assigneeIds := assigneeIds }

end AdminV2

namespace AdminV3

/-- The `Status` union type of the third `RepairDetailPage` component in
src/src/app/admin/repairs/[id]/page.tsx (lines 1105–1111): no
`WAITING_PARTS` status in this variant. -/
inductive Status
  | PENDING
  | ASSIGNED
  | IN_PROGRESS
  | COMPLETED
  | CANCELLED
deriving DecidableEq, Repr

/-- The `Urgency` union type (line 1113). -/
inductive Urgency
  | NORMAL
  | URGENT
  | CRITICAL
deriving DecidableEq, Repr

/-- The fields of this component's `RepairDetail` (lines 1141–1160) that
take part in its decision logic.  The component works with its assignees
through their user ids (`assignees.map(a => a.userId)`), so the assignee
set is modelled as that id list. -/
structure RepairDetail where
  id : String
  title : String
  description : String
  location : String
  status : Status
  urgency : Urgency
  assignees : List Nat
  notes : String
  messageToReporter : String
deriving DecidableEq, Repr

/-- `isAssignedToMe = currentUserId ? assigneeIds.includes(currentUserId) :
false` (lines 1230–1232): a truthiness test, so user id 0 counts as not
logged in. -/
def isAssignedToMe (currentUserId : Option Nat) (assigneeIds : List Nat) : Bool :=
  match currentUserId with
  | none => false
  | some u => if u = 0 then false else assigneeIds.contains u

/-- `canEdit` (lines 1235–1246): terminal tickets are locked; an admin can
edit any active ticket; IT staff only a non-`PENDING` ticket assigned to
them. -/
def canEdit (status : Status) (isAdmin isMine : Bool) : Bool :=
  if status = .COMPLETED ∨ status = .CANCELLED then false
  else if isAdmin then true
  else isMine && !(status == .PENDING)

/-- `canAcceptJob` (lines 1249–1252): the ticket is `ASSIGNED` and assigned
to the current user. -/
def canAcceptJob (status : Status) (isMine : Bool) : Bool :=
  status == .ASSIGNED && isMine

/-- `canAssign` (lines 1255–1258): admin only, `PENDING` tickets only. -/
def canAssign (status : Status) (isAdmin : Bool) : Bool :=
  isAdmin && status == .PENDING

/-- `isLocked` (line 1649). -/
def isLocked (status : Status) : Bool :=
  status == .COMPLETED || status == .CANCELLED

/-- The auto-status effect (lines 1340–1354): for a `PENDING` ticket with a
non-empty selection, the status becomes `IN_PROGRESS` when the current user
is the sole selected assignee, `ASSIGNED` otherwise; in every other case the
form status is left as it is. -/
def autoStatus (dataStatus : Status) (currentUserId : Option Nat)
    (assigneeIds : List Nat) (status : Status) : Status :=
  if dataStatus ≠ .PENDING then status
  else if assigneeIds.length = 0 then status
  else if isAssignedToMe currentUserId assigneeIds ∧ assigneeIds.length = 1 then
    .IN_PROGRESS
  else .ASSIGNED

/-- The `finalStatus` computation inside `handleSave` (lines 1385–1397):
the same derivation, recomputed before the PUT. -/
def handleSaveFinalStatus (dataStatus : Status) (status : Status)
    (currentUserId : Option Nat) (assigneeIds : List Nat) : Status :=
  if dataStatus = .PENDING ∧ 0 < assigneeIds.length then
    if isAssignedToMe currentUserId assigneeIds ∧ assigneeIds.length = 1 then
      .IN_PROGRESS
    else .ASSIGNED
  else status

/-- The outcome of `handleAssignJob` (lines 1432–1499): a warning dialog
when nothing is selected, otherwise a PUT of the computed target status and
the selection. -/
inductive AssignResult
  | warn (msg : String)
  | put (status : Status) (assigneeIds : List Nat)
deriving DecidableEq, Repr

/-- `handleAssignJob` (lines 1432–1499): rejects an empty selection with a
warning; otherwise computes the target status by the same sole-self
derivation and PUTs `{ status: targetStatus, assigneeIds }`. -/
def handleAssignJob (currentUserId : Option Nat) (assigneeIds : List Nat) :
    AssignResult :=
  if assigneeIds.length = 0 then .warn "กรุณาเลือกผู้รับผิดชอบ"
  else if isAssignedToMe currentUserId assigneeIds ∧ assigneeIds.length = 1 then
    .put .IN_PROGRESS assigneeIds
  else .put .ASSIGNED assigneeIds

/-- The full body `handleStatusChange` and `handleSave` PUT (lines
1569–1580 and 1401–1412). -/
structure PutBody where
  problemTitle : String
  problemDescription : String
  location : String
  status : Status
  urgency : Urgency
  notes : String
  messageToReporter : String
  assigneeIds : List Nat
deriving DecidableEq, Repr

/-- The outcome of a `handleStatusChange` run: return without doing
anything, or send the PUT.  The handler has no rejection outcome. -/
inductive StatusChangeResult
  | noAction
  | put (body : PutBody)
deriving DecidableEq, Repr

/-- `handleStatusChange` (lines 1547–1601): returns silently when the
requested status equals the current one (line 1550) or the dialog is
cancelled; otherwise PUTs the form with the new status.  No transition
table is consulted here. -/
def handleStatusChange (data : RepairDetail) (newStatus : Status)
    (confirmed : Bool) (title description location : String)
    (urgency : Urgency) (notes messageToReporter : String)
    (assigneeIds : List Nat) : StatusChangeResult :=
  if newStatus = data.status then .noAction
  else if ¬ confirmed then .noAction
  else
    .put { problemTitle := title, problemDescription := description,
           location := location, status := newStatus, urgency := urgency,
           notes := notes, messageToReporter := messageToReporter,
           assigneeIds := assigneeIds }

/-- The effect of the full PUT on the ticket snapshot: every sent field
overwrites the stored one. -/
def applyPut (data : RepairDetail) (body : PutBody) : RepairDetail :=
  { data with
    title := body.problemTitle
    description := body.problemDescription
    location := body.location
    status := body.status
    urgency := body.urgency
    notes := body.notes
    messageToReporter := body.messageToReporter
    assignees := body.assigneeIds }

/-- A status option as this component's `getAvailableStatuses` returns it. -/
structure StatusOption where
  value : Status
  label : String
  disabled : Bool
deriving DecidableEq, Repr

/-- The `allStatuses` list of `getAvailableStatuses` (lines 1611–1617). -/
def allStatuses : List (Status × String) :=
  [(.PENDING, "รอรับงาน"), (.ASSIGNED, "มอบหมายแล้ว"),
   (.IN_PROGRESS, "กำลังดำเนินการ"), (.COMPLETED, "เสร็จสิ้น"),
   (.CANCELLED, "ยกเลิก")]

/-- The `transitions` table of `getAvailableStatuses` (lines 1619–1626). -/
def transitions : Status → List Status
  | .PENDING => [.ASSIGNED, .CANCELLED]
  | .ASSIGNED => [.PENDING, .IN_PROGRESS, .CANCELLED]
  | .IN_PROGRESS => [.COMPLETED, .CANCELLED]
  | .COMPLETED => []
  | .CANCELLED => []

/-- `getAvailableStatuses` (lines 1604–1633): an option is disabled when it
is neither the current status nor in `transitions[data.status]`. -/
def getAvailableStatuses (dataStatus : Status) : List StatusOption :=
  allStatuses.map fun s =>
    { value := s.1, label := s.2,
      disabled := s.1 ≠ dataStatus ∧ s.1 ∉ transitions dataStatus }

end AdminV3

/-! ## Theorems -/

/-- C1 (amended): in every variant's status options a terminal current
status (`COMPLETED`/`CANCELLED`) disables every option other than the
current one, and the third admin variant also locks editing (`canEdit`
false, `isLocked` true); but the full freeze does not hold: the variant-2
save path still sends a changed field of a `COMPLETED` ticket (no terminal
check), and on the IT page `canEdit` of a `COMPLETED` ticket equals
`isMyJob`, so an assignee can still edit it. -/
theorem c1_terminal_freeze_amended :
    (∀ o ∈ AdminV1.getAvailableStatuses .COMPLETED, o.value ≠ .COMPLETED → o.disabled = true)
    ∧ (∀ o ∈ AdminV1.getAvailableStatuses .CANCELLED, o.value ≠ .CANCELLED → o.disabled = true)
    ∧ (∀ o ∈ Part003.getAvailableStatuses .COMPLETED, o.value ≠ .COMPLETED → o.disabled = true)
    ∧ (∀ o ∈ Part003.getAvailableStatuses .CANCELLED, o.value ≠ .CANCELLED → o.disabled = true)
    ∧ (∀ o ∈ AdminV2.availableStatuses .COMPLETED, o.value ≠ .COMPLETED → o.disabled = true)
    ∧ (∀ o ∈ AdminV2.availableStatuses .CANCELLED, o.value ≠ .CANCELLED → o.disabled = true)
    ∧ (∀ o ∈ AdminV3.getAvailableStatuses .COMPLETED, o.value ≠ .COMPLETED → o.disabled = true)
    ∧ (∀ o ∈ AdminV3.getAvailableStatuses .CANCELLED, o.value ≠ .CANCELLED → o.disabled = true)
    ∧ (∀ a m : Bool, AdminV3.canEdit .COMPLETED a m = false ∧ AdminV3.canEdit .CANCELLED a m = false)
    ∧ (AdminV3.isLocked .COMPLETED = true ∧ AdminV3.isLocked .CANCELLED = true)
    ∧ (∀ (data : AdminV2.RepairDetail) (t d l : String) (u : AdminV2.Urgency)
        (n : String) (ids : List Nat),
        data.status = .COMPLETED → JsString.trimStr n ≠ "" →
        AdminV2.hasChanges data t d l .COMPLETED u n ids = true →
        AdminV2.handleSave data t d l .COMPLETED u n ids
          = .put { problemTitle := t, problemDescription := d, location := l,
                   status := .COMPLETED, urgency := u, notes := n,
                   assigneeIds := ids })
    ∧ (∀ (cu : Option Nat) (d : ITRepair.RepairDetail), d.status = .COMPLETED →
        ITRepair.canEdit cu d = ITRepair.isMyJob cu d) := by
  refine ⟨by decide, by decide, by decide, by decide, by decide, by decide,
    by decide, by decide, by decide, by decide, ?_, ?_⟩
  · intro data t d l u n ids hst htrim hch
    unfold AdminV2.handleSave
    rw [if_neg (by simp [hch]), if_neg (by simp), if_neg (by simp [htrim])]
  · intro cu d hst
    unfold ITRepair.canEdit
    rw [hst]
    cases ITRepair.isMyJob cu d <;> rfl

/-- Witness for C1: the amended freeze-failure clause applied at a concrete
`COMPLETED` ticket with a changed title. -/
theorem c1_terminal_freeze_witness :
    AdminV2.handleSave
      { id := "7", ticketCode := "RT-7", title := "a", description := "d",
        location := "l", status := .COMPLETED, urgency := .NORMAL,
        assignees := [], notes := "done" }
      "b" "d" "l" .COMPLETED .NORMAL "done" []
      = .put { problemTitle := "b", problemDescription := "d", location := "l",
               status := .COMPLETED, urgency := .NORMAL, notes := "done",
               assigneeIds := [] } :=
  c1_terminal_freeze_amended.2.2.2.2.2.2.2.2.2.2.1
    { id := "7", ticketCode := "RT-7", title := "a", description := "d",
      location := "l", status := .COMPLETED, urgency := .NORMAL,
      assignees := [], notes := "done" }
    "b" "d" "l" .NORMAL "done" [] rfl (by decide) (by decide)

/-- C1 (counterexample to the claim as stated): a `COMPLETED` ticket is not
frozen — the variant-2 save path accepts a title change and sends it, so a
field of a terminal ticket does change. -/
theorem c1_terminal_freeze_counterexample :
    AdminV2.handleSave
      { id := "7", ticketCode := "RT-7", title := "a", description := "d",
        location := "l", status := .COMPLETED, urgency := .NORMAL,
        assignees := [], notes := "done" }
      "b" "d" "l" .COMPLETED .NORMAL "done" []
      = .put { problemTitle := "b", problemDescription := "d", location := "l",
               status := .COMPLETED, urgency := .NORMAL, notes := "done",
               assigneeIds := [] }
    ∧ ("b" : String) ≠ "a" := by
  exact ⟨by decide, by decide⟩

/-- C2 (code bug): the IT page's pool pickup offers accept on a `PENDING`
ticket with no assignees, and `handleAcceptJob` PUTs only
`{ status: "IN_PROGRESS" }`, so the resulting ticket is `IN_PROGRESS` with
an empty assignee set and no `PreconditionFailed` — while the sibling
handler in part_003 adds the acting user to the assignee list first. -/
theorem c2_in_progress_assignee_bug :
    ITRepair.showAcceptButton (some 2)
      { id := "9", ticketCode := "RT-9", title := "t", description := "d",
        category := "c", location := "l", status := .PENDING,
        urgency := .NORMAL, assignees := [], notes := "" } = true
    ∧ ITRepair.handleAcceptJob (some 2)
        = .put { problemTitle := none, problemDescription := none,
                 location := none, status := some .IN_PROGRESS,
                 urgency := none, notes := none }
    ∧ (ITRepair.applyPut
        { id := "9", ticketCode := "RT-9", title := "t", description := "d",
          category := "c", location := "l", status := .PENDING,
          urgency := .NORMAL, assignees := [], notes := "" }
        { problemTitle := none, problemDescription := none, location := none,
          status := some .IN_PROGRESS, urgency := none, notes := none }).status
        = .IN_PROGRESS
    ∧ (ITRepair.applyPut
        { id := "9", ticketCode := "RT-9", title := "t", description := "d",
          category := "c", location := "l", status := .PENDING,
          urgency := .NORMAL, assignees := [], notes := "" }
        { problemTitle := none, problemDescription := none, location := none,
          status := some .IN_PROGRESS, urgency := none, notes := none }).assignees
        = []
    ∧ Part003.acceptJobNewIds [] (some 2) = [2] := by
  refine ⟨by decide, by decide, by decide, by decide, by decide⟩

/-- C3: for a `PENDING` ticket and a non-empty assignee selection (a set:
no duplicates) by a logged-in actor, the target status is computed, not
chosen: the sole-self selection yields `IN_PROGRESS`, and a selection with
more than one member or with anyone other than the actor yields `ASSIGNED`
— in the auto-status effect, in `handleSave`'s final status, and in
`handleAssignJob` alike. -/
theorem c3_assignment_derivation (u : Nat) (ids : List Nat) (s : AdminV3.Status)
    (hu : u ≠ 0) (hnodup : ids.Nodup) (hne : ids ≠ []) :
    ((∀ x ∈ ids, x = u) →
      AdminV3.autoStatus .PENDING (some u) ids s = .IN_PROGRESS
      ∧ AdminV3.handleSaveFinalStatus .PENDING s (some u) ids = .IN_PROGRESS
      ∧ AdminV3.handleAssignJob (some u) ids = .put .IN_PROGRESS ids)
    ∧ ((1 < ids.length ∨ ∃ x ∈ ids, x ≠ u) →
      AdminV3.autoStatus .PENDING (some u) ids s = .ASSIGNED
      ∧ AdminV3.handleSaveFinalStatus .PENDING s (some u) ids = .ASSIGNED
      ∧ AdminV3.handleAssignJob (some u) ids = .put .ASSIGNED ids) := by
  have hlen0 : ids.length ≠ 0 := fun h => hne (List.length_eq_zero.mp h)
  constructor
  · intro hall
    have hid : ids = [u] := by
      cases ids with
      | nil => exact absurd rfl hne
      | cons x t =>
        have hx : x = u := hall x (by simp)
        have ht : t = [] := by
          cases t with
          | nil => rfl
          | cons y ys =>
            have hy : y = u := hall y (by simp)
            have hnx : x ∉ y :: ys := (List.nodup_cons.mp hnodup).1
            exact absurd (by simp [hx, hy]) hnx
        rw [hx, ht]
    subst hid
    refine ⟨?_, ?_, ?_⟩ <;>
      simp [AdminV3.autoStatus, AdminV3.handleSaveFinalStatus,
        AdminV3.handleAssignJob, AdminV3.isAssignedToMe, hu]
  · intro hcase
    have hcond : ¬ (AdminV3.isAssignedToMe (some u) ids = true ∧ ids.length = 1) := by
      rintro ⟨hmem, hlen⟩
      rcases List.length_eq_one.mp hlen with ⟨a, ha⟩
      subst ha
      rcases hcase with h1 | ⟨x, hx, hxu⟩
      · simp at h1
      · have hxa : x = a := by simpa using hx
        have hua : u = a := by
          simp [AdminV3.isAssignedToMe, hu] at hmem
          exact hmem
        exact hxu (by rw [hxa, hua])
    have hpos : 0 < ids.length := Nat.pos_of_ne_zero hlen0
    refine ⟨?_, ?_, ?_⟩
    · unfold AdminV3.autoStatus
      rw [if_neg (by simp), if_neg hlen0, if_neg hcond]
    · unfold AdminV3.handleSaveFinalStatus
      rw [if_pos ⟨rfl, hpos⟩, if_neg hcond]
    · unfold AdminV3.handleAssignJob
      rw [if_neg hlen0, if_neg hcond]

/-- Witness for C3: the theorem applied at actor 5 with the sole-self
selection `[5]` and at the two-member selection `[5, 7]`. -/
theorem c3_assignment_derivation_witness :
    AdminV3.handleAssignJob (some 5) [5] = .put .IN_PROGRESS [5]
    ∧ AdminV3.handleAssignJob (some 5) [5, 7] = .put .ASSIGNED [5, 7] :=
  ⟨((c3_assignment_derivation 5 [5] .PENDING (by decide) (by decide)
      (by decide)).1 (by decide)).2.2,
   ((c3_assignment_derivation 5 [5, 7] .PENDING (by decide) (by decide)
      (by decide)).2 (Or.inl (by decide))).2.2⟩

/-- Helper: the IT page's `isMyJob` holds exactly when the current user id
is the id of one of the ticket's assignees. -/
lemma isMyJob_eq_true_iff (cu : Option Nat) (d : ITRepair.RepairDetail) :
    ITRepair.isMyJob cu d = true ↔ ∃ a ∈ d.assignees, cu = some a.id := by
  cases cu with
  | none => simp [ITRepair.isMyJob]
  | some u =>
    simp only [ITRepair.isMyJob, List.any_eq_true, beq_iff_eq, Option.some_inj]
    constructor
    · rintro ⟨a, ha, hid⟩
      exact ⟨a, ha, hid.symm⟩
    · rintro ⟨a, ha, hid⟩
      exact ⟨a, ha, hid.symm⟩

/-- C4 (amended): the accept action is offered exactly when the actor is an
assignee of an `ASSIGNED` ticket or the ticket is `PENDING` with an empty
assignee set (the pool pickup); in particular, for an `ASSIGNED` ticket only
its assignees are offered accept; accepting PUTs `IN_PROGRESS`; and the
admin variant's `canAcceptJob` requires `ASSIGNED` plus assignment to the
current user. -/
theorem c4_accept_gating_amended :
    (∀ (cu : Option Nat) (d : ITRepair.RepairDetail),
      ITRepair.showAcceptButton cu d = true ↔
        ((∃ a ∈ d.assignees, cu = some a.id) ∧ d.status = .ASSIGNED)
        ∨ (d.assignees = [] ∧ d.status = .PENDING))
    ∧ (∀ (cu : Option Nat) (d : ITRepair.RepairDetail), d.status = .ASSIGNED →
        (ITRepair.showAcceptButton cu d = true ↔ ∃ a ∈ d.assignees, cu = some a.id))
    ∧ (∀ u : Nat, u ≠ 0 → ITRepair.handleAcceptJob (some u)
        = .put { problemTitle := none, problemDescription := none, location := none,
                 status := some .IN_PROGRESS, urgency := none, notes := none })
    ∧ (∀ (st : AdminV3.Status) (m : Bool),
        AdminV3.canAcceptJob st m = true ↔ st = .ASSIGNED ∧ m = true) := by
  have hmain : ∀ (cu : Option Nat) (d : ITRepair.RepairDetail),
      ITRepair.showAcceptButton cu d = true ↔
        ((∃ a ∈ d.assignees, cu = some a.id) ∧ d.status = .ASSIGNED)
        ∨ (d.assignees = [] ∧ d.status = .PENDING) := by
    intro cu d
    constructor
    · intro h
      have h2 : (ITRepair.isMyJob cu d = true ∧ d.status = .ASSIGNED)
          ∨ ((ITRepair.isAssigned d = false ∧ ITRepair.isMyJob cu d = false)
              ∧ d.status = .PENDING) := by
        simpa [ITRepair.showAcceptButton, ITRepair.showAcceptAssigned,
          ITRepair.showAcceptPool, Bool.or_eq_true, Bool.and_eq_true,
          Bool.not_eq_true', beq_iff_eq] using h
      rcases h2 with ⟨hm, hs⟩ | ⟨⟨ha, _⟩, hs⟩
      · exact Or.inl ⟨(isMyJob_eq_true_iff cu d).mp hm, hs⟩
      · refine Or.inr ⟨?_, hs⟩
        have : ¬ (0 < d.assignees.length) := by
          simpa [ITRepair.isAssigned] using ha
        have hlen : d.assignees.length = 0 := by omega
        exact List.length_eq_zero.mp hlen
    · intro h
      rcases h with ⟨hmem, hs⟩ | ⟨hnil, hs⟩
      · have hm : ITRepair.isMyJob cu d = true := (isMyJob_eq_true_iff cu d).mpr hmem
        simp [ITRepair.showAcceptButton, ITRepair.showAcceptAssigned, hm, hs]
      · cases cu <;>
          simp [ITRepair.showAcceptButton, ITRepair.showAcceptAssigned,
            ITRepair.showAcceptPool, ITRepair.isAssigned, ITRepair.isMyJob,
            hnil, hs]
  refine ⟨hmain, ?_, ?_, ?_⟩
  · intro cu d hs
    rw [hmain cu d]
    constructor
    · rintro (⟨hmem, _⟩ | ⟨_, hp⟩)
      · exact hmem
      · rw [hs] at hp
        cases hp
    · intro hmem
      exact Or.inl ⟨hmem, hs⟩
  · intro u hu
    simp [ITRepair.handleAcceptJob, hu]
  · intro st m
    simp [AdminV3.canAcceptJob, Bool.and_eq_true, beq_iff_eq]

/-- Witness for C4: the amended accept-produces-`IN_PROGRESS` clause applied
at the concrete logged-in user 9. -/
theorem c4_accept_gating_witness :
    ITRepair.handleAcceptJob (some 9)
      = .put { problemTitle := none, problemDescription := none, location := none,
               status := some .IN_PROGRESS, urgency := none, notes := none } :=
  c4_accept_gating_amended.2.2.1 9 (by decide)

/-- C4 (counterexample to the claim as stated): accept is offered on a
`PENDING` ticket with no assignees to an actor who is not an assignee —
acceptJob is not legal only on `ASSIGNED` tickets. -/
theorem c4_accept_gating_counterexample :
    ITRepair.showAcceptButton (some 2)
      { id := "10", ticketCode := "RT-10", title := "t", description := "d",
        category := "c", location := "l", status := .PENDING,
        urgency := .NORMAL, assignees := [], notes := "" } = true
    ∧ ({ id := "10", ticketCode := "RT-10", title := "t", description := "d",
         category := "c", location := "l", status := .PENDING,
         urgency := .NORMAL, assignees := [], notes := "" }
          : ITRepair.RepairDetail).status ≠ .ASSIGNED
    ∧ ({ id := "10", ticketCode := "RT-10", title := "t", description := "d",
         category := "c", location := "l", status := .PENDING,
         urgency := .NORMAL, assignees := [], notes := "" }
          : ITRepair.RepairDetail).assignees = [] := by
  exact ⟨by decide, by decide, by decide⟩

/-- C5 (amended): the non-empty-notes precondition for `COMPLETED` is
enforced on the variant-2 admin save path (blank trimmed notes are rejected
with the closing-notes error), but not on every path: the IT page's save
submits `COMPLETED` with whatever notes the form holds, empty included. -/
theorem c5_completed_notes_amended :
    (∀ (data : AdminV2.RepairDetail) (t d l : String) (u : AdminV2.Urgency)
      (n : String) (ids : List Nat),
      JsString.trimStr n = "" →
      AdminV2.hasChanges data t d l .COMPLETED u n ids = true →
      AdminV2.handleSave data t d l .COMPLETED u n ids
        = .error "กรุณาบันทึกรายละเอียดการซ่อมก่อนปิดงาน")
    ∧ (∀ (t d l : String) (u : ITRepair.Urgency) (n : String),
      ITRepair.handleSave t d l .COMPLETED u n
        = .put { problemTitle := some t, problemDescription := some d,
                 location := some l, status := some .COMPLETED,
                 urgency := some u, notes := some n }) := by
  constructor
  · intro data t d l u n ids htrim hch
    unfold AdminV2.handleSave
    rw [if_neg (by simp [hch]), if_neg (by simp), if_pos ⟨rfl, htrim⟩]
  · intro t d l u n
    rfl

/-- Witness for C5: the amended admin-path clause applied at a concrete
`IN_PROGRESS` ticket whose form requests `COMPLETED` with empty notes. -/
theorem c5_completed_notes_witness :
    AdminV2.handleSave
      { id := "3", ticketCode := "RT-3", title := "a", description := "d",
        location := "l", status := .IN_PROGRESS, urgency := .NORMAL,
        assignees := [], notes := "x" }
      "a" "d" "l" .COMPLETED .NORMAL "" []
      = .error "กรุณาบันทึกรายละเอียดการซ่อมก่อนปิดงาน" :=
  c5_completed_notes_amended.1
    { id := "3", ticketCode := "RT-3", title := "a", description := "d",
      location := "l", status := .IN_PROGRESS, urgency := .NORMAL,
      assignees := [], notes := "x" }
    "a" "d" "l" .NORMAL "" [] (by decide) (by decide)

/-- C5 (counterexample to the claim as stated): the IT page's save path
submits `COMPLETED` with empty notes — no rejection — and the resulting
ticket is `COMPLETED` with empty notes. -/
theorem c5_completed_notes_counterexample :
    ITRepair.handleSave "t" "d" "l" .COMPLETED .NORMAL ""
      = .put { problemTitle := some "t", problemDescription := some "d",
               location := some "l", status := some .COMPLETED,
               urgency := some .NORMAL, notes := some "" }
    ∧ (ITRepair.applyPut
        { id := "5", ticketCode := "RT-5", title := "t", description := "d",
          category := "c", location := "l", status := .IN_PROGRESS,
          urgency := .NORMAL, assignees := [{ id := 4, name := "tech" }],
          notes := "old" }
        { problemTitle := some "t", problemDescription := some "d",
          location := some "l", status := some .COMPLETED,
          urgency := some .NORMAL, notes := some "" }).status = .COMPLETED
    ∧ (ITRepair.applyPut
        { id := "5", ticketCode := "RT-5", title := "t", description := "d",
          category := "c", location := "l", status := .IN_PROGRESS,
          urgency := .NORMAL, assignees := [{ id := 4, name := "tech" }],
          notes := "old" }
        { problemTitle := some "t", problemDescription := some "d",
          location := some "l", status := some .COMPLETED,
          urgency := some .NORMAL, notes := some "" }).notes = "" := by
  exact ⟨by decide, by decide, by decide⟩

/-- C6 (amended): reject is offered only to assignees of `ASSIGNED`
tickets; a successful reject PUTs `PENDING` with the reason appended to the
notes; a cancelled prompt (`null` reason) aborts silently; but an empty
reason string is accepted and sent — it is not rejected as a validation
error. -/
theorem c6_reject_reason_amended :
    (∀ (u : Nat) (notes r : String), u ≠ 0 →
      ITRepair.handleRejectJob (some u) notes (some r)
        = .put { problemTitle := none, problemDescription := none,
                 location := none, status := some .PENDING, urgency := none,
                 notes := some (notes ++ "\n[ปฏิเสธงานโดย IT]: " ++ r) })
    ∧ (∀ (cu : Option Nat) (notes : String),
        ITRepair.handleRejectJob cu notes none = .noAction)
    ∧ (∀ (cu : Option Nat) (d : ITRepair.RepairDetail),
        ITRepair.showRejectButton cu d = true ↔
          (∃ a ∈ d.assignees, cu = some a.id) ∧ d.status = .ASSIGNED) := by
  refine ⟨?_, ?_, ?_⟩
  · intro u notes r hu
    simp [ITRepair.handleRejectJob, hu]
  · intro cu notes
    cases cu with
    | none => rfl
    | some u =>
      simp only [ITRepair.handleRejectJob]
      split <;> rfl
  · intro cu d
    simp only [ITRepair.showRejectButton, Bool.and_eq_true, beq_iff_eq,
      isMyJob_eq_true_iff]

/-- Witness for C6: the amended reject clause applied at the concrete
logged-in user 3 with a non-empty reason. -/
theorem c6_reject_reason_witness :
    ITRepair.handleRejectJob (some 3) "n" (some "broken")
      = .put { problemTitle := none, problemDescription := none,
               location := none, status := some .PENDING, urgency := none,
               notes := some ("n" ++ "\n[ปฏิเสธงานโดย IT]: " ++ "broken") } :=
  c6_reject_reason_amended.1 3 "n" "broken" (by decide)

/-- C6 (counterexample to the claim as stated): a reject with an empty
(non-null) reason is accepted and PUT with the empty reason appended — not
rejected as a validation error. -/
theorem c6_reject_reason_counterexample :
    ITRepair.handleRejectJob (some 3) "log" (some "")
      = .put { problemTitle := none, problemDescription := none,
               location := none, status := some .PENDING, urgency := none,
               notes := some "log\n[ปฏิเสธงานโดย IT]: " }
    ∧ ITRepair.handleRejectJob (some 3) "log" (some "")
        ≠ .noAction := by
  exact ⟨by decide, by decide⟩

/-- C7 (amended): the variant-2 `STATUS_FLOW` row for `IN_PROGRESS` is
exactly `WAITING_PARTS, COMPLETED, CANCELLED` and its options disable
`PENDING`; part_003 disables `PENDING` from `IN_PROGRESS` and
`WAITING_PARTS`; variant 3 allows only `COMPLETED, CANCELLED` from
`IN_PROGRESS` (a strict subset — no `WAITING_PARTS`) and disables
`PENDING`; but variant 1 imposes no transition restriction: it offers
`PENDING` as an enabled target from `IN_PROGRESS`, so the pages' tables do
not agree. -/
theorem c7_in_progress_targets_amended :
    AdminV2.STATUS_FLOW .IN_PROGRESS = [.WAITING_PARTS, .COMPLETED, .CANCELLED]
    ∧ (∀ o ∈ AdminV2.availableStatuses .IN_PROGRESS,
        o.value = .PENDING → o.disabled = true)
    ∧ (∀ o ∈ Part003.getAvailableStatuses .IN_PROGRESS,
        o.value = .PENDING → o.disabled = true)
    ∧ (∀ o ∈ Part003.getAvailableStatuses .WAITING_PARTS,
        o.value = .PENDING → o.disabled = true)
    ∧ AdminV3.transitions .IN_PROGRESS = [.COMPLETED, .CANCELLED]
    ∧ (∀ o ∈ AdminV3.getAvailableStatuses .IN_PROGRESS,
        o.value = .PENDING → o.disabled = true)
    ∧ (∃ o ∈ AdminV1.getAvailableStatuses .IN_PROGRESS,
        o.value = .PENDING ∧ o.disabled = false) := by
  refine ⟨rfl, by decide, by decide, by decide, rfl, by decide, by decide⟩

/-- Witness for C7: the amended variant-2 clause applied at the concrete
`PENDING` option of its `IN_PROGRESS` option list. -/
theorem c7_in_progress_targets_witness :
    ({ value := AdminV2.Status.PENDING, label := "รอดำเนินการ", disabled := true }
      : AdminV2.StatusOption).disabled = true :=
  c7_in_progress_targets_amended.2.1
    { value := AdminV2.Status.PENDING, label := "รอดำเนินการ", disabled := true }
    (by decide) rfl

/-- C7 (counterexample to the claim as stated): variant 1's option list
from `IN_PROGRESS` in full — every option, `PENDING` included, is enabled,
so `IN_PROGRESS → PENDING` is offered there and the pages' tables
disagree. -/
theorem c7_in_progress_targets_counterexample :
    AdminV1.getAvailableStatuses .IN_PROGRESS
      = [{ value := .PENDING, label := "รอรับงาน", disabled := false },
         { value := .ASSIGNED, label := "มอบหมายแล้ว (รอตอบรับ)", disabled := false },
         { value := .IN_PROGRESS, label := "กำลังดำเนินการ", disabled := false },
         { value := .COMPLETED, label := "เสร็จสิ้น", disabled := false },
         { value := .CANCELLED, label := "ยกเลิก", disabled := false }] := by
  decide

/-- C8 (amended): a requested status equal to the current one (or an
unconfirmed dialog) makes `handleStatusChange` return silently — no update
request is sent, but no `IllegalTransition` (or any other) error is raised
either; the handler's only outcomes are silence and the PUT. -/
theorem c8_idempotent_resubmit_amended
    (data : AdminV3.RepairDetail) (newStatus : AdminV3.Status)
    (confirmed : Bool) (t d l : String) (u : AdminV3.Urgency)
    (n m : String) (ids : List Nat) :
    AdminV3.handleStatusChange data newStatus confirmed t d l u n m ids
        = .noAction
      ↔ (newStatus = data.status ∨ confirmed = false) := by
  unfold AdminV3.handleStatusChange
  by_cases h1 : newStatus = data.status
  · simp [h1]
  · cases confirmed <;> simp [h1]

/-- C8 (counterexample to the claim as stated): applying the same
transition a second time from the state the first produced is silently
ignored, not rejected with `IllegalTransition`: the first call PUTs
`IN_PROGRESS`, the reloaded ticket is `IN_PROGRESS`, and the second call
returns without any error outcome. -/
theorem c8_idempotent_resubmit_counterexample :
    AdminV3.handleStatusChange
      { id := "1", title := "t", description := "d", location := "l",
        status := .ASSIGNED, urgency := .NORMAL, assignees := [4],
        notes := "n", messageToReporter := "m" }
      .IN_PROGRESS true "t" "d" "l" .NORMAL "n" "m" [4]
      = .put { problemTitle := "t", problemDescription := "d", location := "l",
               status := .IN_PROGRESS, urgency := .NORMAL, notes := "n",
               messageToReporter := "m", assigneeIds := [4] }
    ∧ (AdminV3.applyPut
        { id := "1", title := "t", description := "d", location := "l",
          status := .ASSIGNED, urgency := .NORMAL, assignees := [4],
          notes := "n", messageToReporter := "m" }
        { problemTitle := "t", problemDescription := "d", location := "l",
          status := .IN_PROGRESS, urgency := .NORMAL, notes := "n",
          messageToReporter := "m", assigneeIds := [4] }).status = .IN_PROGRESS
    ∧ AdminV3.handleStatusChange
        (AdminV3.applyPut
          { id := "1", title := "t", description := "d", location := "l",
            status := .ASSIGNED, urgency := .NORMAL, assignees := [4],
            notes := "n", messageToReporter := "m" }
          { problemTitle := "t", problemDescription := "d", location := "l",
            status := .IN_PROGRESS, urgency := .NORMAL, notes := "n",
            messageToReporter := "m", assigneeIds := [4] })
        .IN_PROGRESS true "t" "d" "l" .NORMAL "n" "m" [4]
        = .noAction := by
  exact ⟨by decide, by decide, by decide⟩

/-- C9 (amended): the first admin variant's accept decision is a
deterministic function of its explicit form state **and** the ambient
session identity it reads inside the handler (`AuthService.getUserId()`):
with the ambient identity fixed the outcome is fully determined, but two
runs with the same explicit inputs and different stored identities produce
different requests, so the decision is not independent of ambient state. -/
theorem c9_ambient_state_amended :
    (∀ (ids : List Nat) (u : Nat), u ≠ 0 → ids.contains u = false →
      AdminV1.acceptJobNewIds ids (some u) = ids ++ [u])
    ∧ (∀ (ids : List Nat) (u : Nat), ids.contains u = true →
      AdminV1.acceptJobNewIds ids (some u) = ids)
    ∧ (∀ ids : List Nat, AdminV1.acceptJobNewIds ids none = ids)
    ∧ AdminV1.handleAcceptJob [] (some 1) ≠ AdminV1.handleAcceptJob [] (some 2) := by
  refine ⟨?_, ?_, ?_, by decide⟩
  · intro ids u hu hc
    simp [AdminV1.acceptJobNewIds, hu, hc]
    simpa using hc
  · intro ids u hc
    simp [AdminV1.acceptJobNewIds, hc]
    intro _
    simpa using hc
  · intro ids
    rfl

/-- Witness for C9: the amended push clause applied at the concrete ambient
user 7 and an empty form assignee list. -/
theorem c9_ambient_state_witness :
    AdminV1.acceptJobNewIds [] (some 7) = [] ++ [7] :=
  c9_ambient_state_amended.1 [] 7 (by decide) (by decide)

/-- C9 (counterexample to the claim as stated): two accept runs with
identical explicit inputs (same ticket form state, empty assignee list) but
different ambient stored identities build different PUT bodies — the
decision does depend on ambient session state read inside the handler. -/
theorem c9_ambient_state_counterexample :
    AdminV1.handleAcceptJob [] (some 1)
        = { status := .IN_PROGRESS, assigneeIds := [1] }
    ∧ AdminV1.handleAcceptJob [] (some 2)
        = { status := .IN_PROGRESS, assigneeIds := [2] }
    ∧ ({ status := .IN_PROGRESS, assigneeIds := [1] } : AdminV1.AcceptPutBody)
        ≠ { status := .IN_PROGRESS, assigneeIds := [2] } := by
  exact ⟨by decide, by decide, by decide⟩

/-- C10: on the admin loans page, every displayed loan matches the status
filter (or the filter is "all") and contains the search term
case-insensitively in its item name or its borrower's name; each page shows
at most `itemsPerPage = 10` loans; and the page count is the ceiling of
`filteredLoans.length / 10`, characterised arithmetically. -/
theorem c10_loans_filter_pagination
    (loans : List AdminLoans.Loan) (term filter : List Char) (page : Nat) :
    (∀ loan ∈ AdminLoans.paginatedLoans loans term filter page,
        (filter = "all".toList ∨ AdminLoans.statusKey loan.status = filter)
        ∧ (JsString.containsSub (JsString.toLower loan.itemName)
              (JsString.toLower term) = true
            ∨ JsString.containsSub (JsString.toLower loan.borrowedBy.name)
              (JsString.toLower term) = true))
    ∧ (AdminLoans.paginatedLoans loans term filter page).length ≤ AdminLoans.itemsPerPage
    ∧ (AdminLoans.filteredLoans loans term filter).length
        ≤ AdminLoans.itemsPerPage * AdminLoans.totalPages loans term filter
    ∧ AdminLoans.itemsPerPage * AdminLoans.totalPages loans term filter
        < (AdminLoans.filteredLoans loans term filter).length + AdminLoans.itemsPerPage := by
  refine ⟨?_, ?_, ?_, ?_⟩
  · intro loan hmem
    have hfil : loan ∈ AdminLoans.filteredLoans loans term filter := by
      have h1 := List.mem_of_mem_take hmem
      exact List.mem_of_mem_drop h1
    have hp := (List.mem_filter.mp hfil).2
    have hsearch : AdminLoans.matchesSearch loan term = true :=
      (Bool.and_eq_true _ _ ▸ hp).1
    have hstatus : AdminLoans.matchesStatus loan filter = true :=
      (Bool.and_eq_true _ _ ▸ hp).2
    constructor
    · rcases Bool.or_eq_true _ _ |>.mp hstatus with h | h
      · exact Or.inl (beq_iff_eq.mp h)
      · exact Or.inr (beq_iff_eq.mp h)
    · exact Bool.or_eq_true _ _ |>.mp hsearch
  · calc (AdminLoans.paginatedLoans loans term filter page).length
        ≤ page * AdminLoans.itemsPerPage - (page - 1) * AdminLoans.itemsPerPage :=
          List.length_take_le _ _
      _ ≤ AdminLoans.itemsPerPage := by
          unfold AdminLoans.itemsPerPage
          omega
  · have hmod : ((AdminLoans.filteredLoans loans term filter).length + 9) % 10 < 10 :=
      Nat.mod_lt _ (by omega)
    have hdm := Nat.div_add_mod ((AdminLoans.filteredLoans loans term filter).length + 9) 10
    unfold AdminLoans.totalPages AdminLoans.itemsPerPage
    omega
  · have hmod : ((AdminLoans.filteredLoans loans term filter).length + 9) % 10 < 10 :=
      Nat.mod_lt _ (by omega)
    have hdm := Nat.div_add_mod ((AdminLoans.filteredLoans loans term filter).length + 9) 10
    unfold AdminLoans.totalPages AdminLoans.itemsPerPage
    omega

/-- Witness for C10: the theorem applied at a concrete loan list, search
term, status filter and page, discharging the membership hypothesis at a
concrete displayed loan. -/
theorem c10_loans_filter_pagination_witness :
    ("RET".toList = "all".toList ∨
        AdminLoans.statusKey AdminLoans.LoanStatus.RETURNED = "RET".toList)
    ∨ (JsString.containsSub (JsString.toLower "Laptop".toList)
          (JsString.toLower "LAP".toList) = true
        ∨ JsString.containsSub (JsString.toLower "Ann".toList)
          (JsString.toLower "LAP".toList) = true) := by
  have h := (c10_loans_filter_pagination
      [{ id := 1, itemName := "Laptop".toList, description := none, quantity := 1,
         borrowDate := [], expectedReturnDate := [], returnDate := none,
         status := AdminLoans.LoanStatus.RETURNED,
         borrowedBy := { id := 4, name := "Ann".toList }, remark := none }]
      "LAP".toList "RETURNED".toList 1).1
      { id := 1, itemName := "Laptop".toList, description := none, quantity := 1,
        borrowDate := [], expectedReturnDate := [], returnDate := none,
        status := AdminLoans.LoanStatus.RETURNED,
        borrowedBy := { id := 4, name := "Ann".toList }, remark := none }
      (by decide)
  exact Or.inr h.2
